import Mathlib

/-!
Verification of the layered grep search engine with telemetry
(`packages/core/src/tools/grep.ts` and
`packages/core/src/services/testBenchAnalytics.ts`).

The TypeScript sources are shallowly embedded as executable Lean
definitions: JS strings become `String` (character-list based helpers mirror
the `String.prototype` methods used by the code, restricted to the POSIX
platform instantiation: end-of-line `"\n"`, path separator `"/"`, ASCII case
mapping), JS numbers used for scores become `ℚ` (the score arithmetic here
involves only sums of small decimal constants, comparisons and clamping, for
which rational arithmetic agrees with the double arithmetic of the source),
and the external collaborators (schema validator, RegExp engine, file system,
child processes, glob traversal) become fields of an explicit environment
record so that the control flow of the embedded functions is exactly that of
the source.
-/

namespace GrepCore

/-! ### JS string primitives

Helpers mirroring the exact `String.prototype` methods the source uses.
All of them work on `String.data`, the underlying character list. -/

/-- Does the character list `l` start with the character list `pre`?
(Used to model substring search.) -/
def leadsWith : List Char → List Char → Bool
  | _, [] => true
  | [], _ :: _ => false
  | a :: as, b :: bs => a == b && leadsWith as bs

/-- Model of `String.prototype.indexOf(char, start)` restricted to a single
character needle, returning `none` where JS returns `-1`: the least index
`i ≥ start` with `s[i] = c`. -/
def jsIndexOfCharFrom (s : String) (c : Char) (start : Nat) : Option Nat :=
  (List.range s.data.length).find? (fun i => decide (start ≤ i) && (s.data.get? i == some c))

/-- Model of `String.prototype.indexOf(substring)`: the least index at which
`sub` occurs in `s`, with the JS conventions that the empty needle is found at
index `0` and a missing needle yields `-1`. -/
def jsIndexOfStr (s sub : String) : Int :=
  match (List.range (s.data.length + 1)).find? (fun i => leadsWith (s.data.drop i) sub.data) with
  | some i => (i : Int)
  | none => -1

/-- Model of `String.prototype.includes(sub)`. -/
def jsIncludes (s sub : String) : Bool :=
  0 ≤ jsIndexOfStr s sub

/-- First `n` characters of `s` (model of `s.substring(0, n)`). -/
def strTake (s : String) (n : Nat) : String :=
  String.mk (s.data.take n)

/-- Characters of `s` from index `n` on (model of `s.substring(n)`). -/
def strDrop (s : String) (n : Nat) : String :=
  String.mk (s.data.drop n)

/-- Model of `s.substring(a, b)` for `a ≤ b`. -/
def strSlice (s : String) (a b : Nat) : String :=
  String.mk ((s.data.drop a).take (b - a))

/-- Whitespace class used by JS `trim` / `parseInt` (ASCII part). -/
def isJsWhitespace (c : Char) : Bool :=
  c == ' ' || c == '\t' || c == '\n' || c == '\r' || c == '\x0b' || c == '\x0c'

/-- Model of `String.prototype.trim` (ASCII whitespace). -/
def jsTrim (s : String) : String :=
  String.mk (((s.data.dropWhile isJsWhitespace).reverse.dropWhile isJsWhitespace).reverse)

/-- Model of `String.prototype.toLowerCase` (ASCII case mapping). -/
def jsToLower (s : String) : String :=
  String.mk (s.data.map Char.toLower)

/-- Model of `String.prototype.toUpperCase` (ASCII case mapping). -/
def jsToUpper (s : String) : String :=
  String.mk (s.data.map Char.toUpper)

/-- Model of `Array.prototype.join(sep)` on a list of strings. -/
def jsJoin (sep : String) : List String → String
  | [] => ""
  | [a] => a
  | a :: b :: rest => a ++ sep ++ jsJoin sep (b :: rest)

/-- Split a character list on a separator character, keeping empty pieces
(the semantics of `s.split(sep)` for a single-character separator).
`acc` holds the characters of the current piece in reverse. -/
def splitCharAux (sep : Char) : List Char → List Char → List String
  | [], acc => [String.mk acc.reverse]
  | c :: cs, acc =>
    if c == sep then String.mk acc.reverse :: splitCharAux sep cs []
    else splitCharAux sep cs (c :: acc)

/-- Model of `s.split(sep)` for a single-character separator (every split the
source performs is on a single character). -/
def splitOnChar (s : String) (sep : Char) : List String :=
  splitCharAux sep s.data []

/-- Numeric value of a list of decimal digit characters. -/
def digitsVal (ds : List Char) : Nat :=
  ds.foldl (fun acc c => acc * 10 + (c.toNat - 48)) 0

/-- Model of `parseInt(s, 10)`: skip leading whitespace, optional sign, then
the longest run of leading decimal digits; `none` models `NaN` (no digits).
Trailing garbage after the digits is ignored, exactly as in JS. -/
def parseIntJS (s : String) : Option Int :=
  let cs := s.data.dropWhile isJsWhitespace
  let signAndRest : Bool × List Char :=
    match cs with
    | '-' :: r => (true, r)
    | '+' :: r => (false, r)
    | _ => (false, cs)
  let ds := signAndRest.2.takeWhile Char.isDigit
  if ds.isEmpty then none
  else some ((if signAndRest.1 then -1 else 1) * (digitsVal ds : Int))

/-- Model of `content.split(/\r?\n/)`: split on `"\n"` and strip one trailing
carriage return from every piece that was followed by a `"\n"` (the `\r`
belongs to the separator there). -/
def stripTrailingCR (t : String) : String :=
  match t.data.reverse with
  | '\r' :: r => String.mk r.reverse
  | _ => t

/-- Split a string the way `s.split(/\r?\n/)` does. -/
def splitLinesJS (s : String) : List String :=
  match (splitOnChar s '\n').reverse with
  | [] => []
  | last :: revInit => (revInit.reverse.map stripTrailingCR) ++ [last]

/-- Model of `Array.prototype.slice(start, end)` with the JS clamping rules
(negative indices count from the end). -/
def jsSlice {α : Type} (l : List α) (a b : Int) : List α :=
  let len : Int := l.length
  let a' : Int := if a < 0 then max (len + a) 0 else min a len
  let b' : Int := if b < 0 then max (len + b) 0 else min b len
  (l.drop a'.toNat).take (b' - a').toNat

/-! ### Node `path` module (POSIX instantiation)

Just the functions the source uses: `resolve`, `relative`, `basename`,
`extname`, `join`. Paths are normalized through their `"/"`-separated
segments. -/

/-- Split on the path separator. -/
def splitSlash (s : String) : List String :=
  splitOnChar s '/' 

/-- One step of path normalization over segments (absolute-path semantics:
a `".."` above the root is dropped, as `path.resolve` does). -/
def normStep (acc : List String) (seg : String) : List String :=
  if seg = "" || seg = "." then acc
  else if seg = ".." then acc.dropLast
  else acc ++ [seg]

/-- Normalize a segment list of an absolute path. -/
def normSegs (segs : List String) : List String :=
  segs.foldl normStep []

/-- Join segments into an absolute path string. -/
def joinAbs (segs : List String) : String :=
  "/" ++ jsJoin "/" segs

/-- Model of `path.resolve(base, p)` where `base` is absolute. -/
def pathResolve (base p : String) : String :=
  if leadsWith p.data "/".data then joinAbs (normSegs (splitSlash p))
  else joinAbs (normSegs (splitSlash base ++ splitSlash p))

/-- Drop the common leading segments of two segment lists. -/
def dropCommon : List String → List String → List String × List String
  | a :: as, b :: bs => if a = b then dropCommon as bs else (a :: as, b :: bs)
  | as, bs => (as, bs)

/-- Model of `path.relative(src, dst)` for absolute `src`, `dst`. -/
def pathRelative (src dst : String) : String :=
  let f := normSegs (splitSlash src)
  let t := normSegs (splitSlash dst)
  let rest := dropCommon f t
  jsJoin "/" (List.replicate rest.1.length ".." ++ rest.2)

/-- Model of `path.basename` on normalized paths. -/
def pathBasename (p : String) : String :=
  match (normSegs (splitSlash p)).getLast? with
  | some s => s
  | none => if leadsWith p.data "/".data then "/" else "."

/-- Index (from the start of `l`) of the last `'.'` in `l`, if any. -/
def lastDotIdx (l : List Char) : Option Nat :=
  match l.reverse.findIdx? (fun c => c == '.') with
  | some k => some (l.length - 1 - k)
  | none => none

/-- Model of `path.extname`: the suffix of the base name from its last dot,
empty when there is no dot or the only dot starts the base name. -/
def pathExtname (p : String) : String :=
  let b := (pathBasename p).data
  match lastDotIdx b with
  | some i => if i = 0 then "" else String.mk (b.drop i)
  | none => ""

/-- Model of `path.join(a, b)` for already-normalized nonempty segments. -/
def pathJoin (a b : String) : String :=
  if a = "" then b else if b = "" then a else a ++ "/" ++ b

/-! ### The match record and the grep-output parser (`parseGrepOutput`) -/

/-- Result object for a single grep match (`GrepMatch` in the source). -/
structure GrepMatch where
  filePath : String
  lineNumber : Int
  line : String
deriving DecidableEq, Repr

/-- Re-expression of a raw file path relative to the search root, with the
base-name fallback; this is the `path.resolve` / `path.relative` /
`|| path.basename` combination of `parseGrepOutput` (grep.ts lines 357-361)
and of the in-process fallback (grep.ts lines 586-588). -/
def reexpressRelative (basePath raw : String) : String :=
  let absoluteFilePath := pathResolve basePath raw
  let relativeFilePath := pathRelative basePath absoluteFilePath
  if relativeFilePath = "" then pathBasename absoluteFilePath else relativeFilePath

/-- The per-line body of `parseGrepOutput` (grep.ts lines 335-366): skip blank
lines, find the first colon and the first colon after it, parse the middle
field with `parseInt`, and build the match record. -/
def parseGrepLine (basePath line : String) : Option GrepMatch :=
  if jsTrim line = "" then none
  else
    match jsIndexOfCharFrom line ':' 0 with
    | none => none
    | some firstColonIndex =>
      match jsIndexOfCharFrom line ':' (firstColonIndex + 1) with
      | none => none
      | some secondColonIndex =>
        let filePathRaw := strTake line firstColonIndex
        let lineNumberStr := strSlice line (firstColonIndex + 1) secondColonIndex
        let lineContent := strDrop line (secondColonIndex + 1)
        match parseIntJS lineNumberStr with
        | none => none
        | some lineNumber =>
          some { filePath := reexpressRelative basePath filePathRaw
                 lineNumber := lineNumber
                 line := lineContent }

/-- The platform end-of-line terminator (POSIX instantiation of `os.EOL`). -/
def eol : Char := '\n'

/-- Model of `parseGrepOutput(output, basePath)` (grep.ts lines 329-368). -/
def parseGrepOutput (output basePath : String) : List GrepMatch :=
  if output = "" then []
  else (splitOnChar output eol).filterMap (parseGrepLine basePath)

/-! ### Relevance and ranking heuristics (grep.ts lines 734-875)

Scores are rationals; every constant of the source (`0.5`, `0.2`, `0.1`,
`0.01`, `0.3`, `1`) is exactly representable and the arithmetic is a sum of
at most a handful of such constants followed by comparisons and `Math.min`,
on which double and rational arithmetic agree. -/

/-- The fixed favored extension set of `calculateRelevanceScore`. -/
def favoredExtensions : List String := [".md", ".txt", ".js", ".ts", ".py", ".java"]

/-- Model of `calculateRelevanceScore(match, pattern)` (grep.ts lines
734-759), translated statement by statement: the running `score` variable
becomes a let-chain. Note that `indexOf` yields `-1` when the pattern does
not occur in the trimmed line, and `-1 < 10`, so the position bonus also
fires in that case, exactly as in the source. -/
def calculateRelevanceScore (m : GrepMatch) (pattern : String) : ℚ :=
  let score : ℚ := 0.5
  let score := if jsIncludes (jsToLower m.line) (jsToLower pattern) then score + 0.2 else score
  let lineLength := (jsTrim m.line).data.length
  let score := if lineLength < 100 then score + 0.1 else score
  let score := if lineLength < 50 then score + 0.1 else score
  let trimmedLine := jsTrim m.line
  let matchIndex := jsIndexOfStr (jsToLower trimmedLine) (jsToLower pattern)
  let score := if matchIndex < 10 then score + 0.1 else score
  let ext := jsToLower (pathExtname m.filePath)
  let score := if favoredExtensions.contains ext then score + 0.1 else score
  min 1 score

/-- The relevance score as the claim states it: `0.5` plus independent
increments, summed and then clamped to at most `1`. The position increment
is governed by the index of the lowercased pattern in the trimmed lowercased
line (the `indexOf` value, `-1` when absent) being below `10`. -/
def relevanceScoreSpec (m : GrepMatch) (pattern : String) : ℚ :=
  min 1 (0.5
    + (if jsIncludes (jsToLower m.line) (jsToLower pattern) then 0.2 else 0)
    + (if (jsTrim m.line).data.length < 100 then 0.1 else 0)
    + (if (jsTrim m.line).data.length < 50 then 0.1 else 0)
    + (if jsIndexOfStr (jsToLower (jsTrim m.line)) (jsToLower pattern) < 10 then 0.1 else 0)
    + (if favoredExtensions.contains (jsToLower (pathExtname m.filePath)) then 0.1 else 0))

/-- Model of `getMatchReason(match, pattern)` (grep.ts lines 764-786).
The compiled case-insensitive regex test `new RegExp(pattern, 'i').test(line)`
is abstracted as the function argument `regexTestI`. -/
def getMatchReason (regexTestI : String → String → Bool)
    (m : GrepMatch) (pattern : String) : String :=
  let reasons : List String :=
    (if jsIncludes (jsToLower m.line) (jsToLower pattern) then ["exact pattern match"] else [])
    ++ (if regexTestI pattern m.line then ["regex pattern match"] else [])
    ++ (if pathExtname m.filePath ≠ "" then
          ["found in " ++ pathExtname m.filePath ++ " file"] else [])
    ++ (if m.lineNumber < 10 then ["near file beginning"] else [])
  let joined := jsJoin ", " reasons
  if joined = "" then "pattern match" else joined

/-- The match reason as the claim states it: the comma-joined list of the
applicable reasons, defaulting to `"pattern match"` when none apply. -/
def matchReasonSpec (regexTestI : String → String → Bool)
    (m : GrepMatch) (pattern : String) : String :=
  let reasons : List String :=
    (if jsIncludes (jsToLower m.line) (jsToLower pattern) then ["exact pattern match"] else [])
    ++ (if regexTestI pattern m.line then ["regex pattern match"] else [])
    ++ (if pathExtname m.filePath ≠ "" then
          ["found in " ++ pathExtname m.filePath ++ " file"] else [])
    ++ (if m.lineNumber < 10 then ["near file beginning"] else [])
  if reasons = [] then "pattern match" else jsJoin ", " reasons

/-- The regex metacharacter class `[.*+?^${}()|[\]\\]` of the source
(`calculatePatternComplexity` and `determineSearchStrategy`). -/
def regexMetachars : List Char :=
  ['.', '*', '+', '?', '^', '$', '\x7b', '\x7d', '(', ')', '|', '[', ']', '\\']

/-- Number of regex-metacharacter occurrences in a pattern
(`pattern.match(/[.*+?^${}()|[\]\\]/g)` match count). -/
def metaCount (pattern : String) : Nat :=
  (pattern.data.filter (fun c => regexMetachars.contains c)).length

/-- Model of `calculatePatternComplexity(pattern)` (grep.ts lines 844-875),
translated statement by statement. The `if (regexMatches)` guard of the
source (a `null` match result when there is no metacharacter) becomes the
`metaCount pattern > 0` test. -/
def calculatePatternComplexity (pattern : String) : ℚ :=
  let complexity : ℚ := 0
  let complexity :=
    if metaCount pattern > 0 then complexity + min ((metaCount pattern : ℚ) * 0.1) 0.5
    else complexity
  let complexity := complexity + min ((pattern.data.length : ℚ) * 0.01) 0.3
  let complexity :=
    if pattern ≠ jsToLower pattern ∧ pattern ≠ jsToUpper pattern then complexity + 0.1
    else complexity
  let complexity :=
    if jsIncludes pattern "\\b" ∨ jsIncludes pattern "\\w" ∨ jsIncludes pattern "\\d" then
      complexity + 0.2
    else complexity
  min complexity 1

/-- Pattern complexity as the claim states it, including the claimed
whitespace shorthand escape `\s` among the escapes that add `0.2`. -/
def patternComplexityClaim (pattern : String) : ℚ :=
  min 1 (min ((metaCount pattern : ℚ) * 0.1) 0.5
    + min ((pattern.data.length : ℚ) * 0.01) 0.3
    + (if pattern ≠ jsToLower pattern ∧ pattern ≠ jsToUpper pattern then 0.1 else 0)
    + (if jsIncludes pattern "\\b" ∨ jsIncludes pattern "\\w"
          ∨ jsIncludes pattern "\\s" ∨ jsIncludes pattern "\\d" then 0.2 else 0))

/-- Pattern complexity as the amended claim states it: the shorthand-escape
bonus fires only for the word-boundary, word and digit escapes actually
tested by the source (`\b`, `\w`, `\d`), not for the whitespace escape. -/
def patternComplexityAmended (pattern : String) : ℚ :=
  min 1 (min ((metaCount pattern : ℚ) * 0.1) 0.5
    + min ((pattern.data.length : ℚ) * 0.01) 0.3
    + (if pattern ≠ jsToLower pattern ∧ pattern ≠ jsToUpper pattern then 0.1 else 0)
    + (if jsIncludes pattern "\\b" ∨ jsIncludes pattern "\\w"
          ∨ jsIncludes pattern "\\d" then 0.2 else 0))

/-! ### Telemetry data model (`testBenchAnalytics.ts`)

The classes `TestBenchAnalytics` and `SearchSession` are stateful; they are
embedded as immutable records with explicit state passing. Times
(`Date.now()`, `performance.now()`) are supplied by the caller. -/

/-- The `searchType` union of `SearchAnalytics`. -/
inductive SearchType where
  | grep
  | embedding
  | glob
  | read_files
deriving DecidableEq, Repr

/-- Rendering of a `SearchType` as the source string literal. -/
def searchTypeName : SearchType → String
  | .grep => "grep"
  | .embedding => "embedding"
  | .glob => "glob"
  | .read_files => "read_files"

/-- The `MatchAnalytics` record (testBenchAnalytics.ts lines 28-38); the
optional fields a grep search always sets are kept plain. -/
structure MatchAnalytics where
  filePath : String
  lineNumber : Int
  matchText : String
  contextBefore : String
  contextAfter : String
  relevanceScore : ℚ
  matchReason : String
  fileSize : Int
  fileLastModified : Int
deriving DecidableEq, Repr

/-- The `RankingFactor` record (testBenchAnalytics.ts lines 57-63). -/
structure RankingFactor where
  factor : String
  weight : ℚ
  value : ℚ
  impact : ℚ
  explanation : String
deriving DecidableEq, Repr

/-- The `SearchAnalytics` record (testBenchAnalytics.ts lines 11-26).
`embeddingDetails` and `searchParameters` are never set along the grep
paths modeled here; they are carried as inert optional placeholders. -/
structure SearchAnalytics where
  timestamp : Int
  query : String
  searchType : SearchType
  targetPath : String
  pattern : Option String
  executionTimeMs : ℚ
  resultsFound : Int
  filesScanned : Int
  matchDetails : List MatchAnalytics
  searchStrategy : String
  rankingFactors : Option (List RankingFactor)
  toolDecisionReason : Option String
  searchParameters : Option (List (String × String))
deriving DecidableEq, Repr

/-- A `SearchSession` (testBenchAnalytics.ts lines 456-526): the analytics
record (null when telemetry is disabled) plus the captured start instant. -/
structure SearchSession where
  analytics : Option SearchAnalytics
  startTime : ℚ
deriving DecidableEq, Repr

/-- Model of `SearchSession.prototype.isActive`. -/
def SearchSession.isActive (s : SearchSession) : Bool :=
  s.analytics.isSome

/-- Model of `SearchSession.prototype.addMatch`. -/
def SearchSession.addMatch (s : SearchSession) (m : MatchAnalytics) : SearchSession :=
  match s.analytics with
  | none => s
  | some a =>
    { s with analytics := some { a with
        matchDetails := a.matchDetails ++ [m]
        resultsFound := a.resultsFound + 1 } }

/-- Model of `SearchSession.prototype.setFilesScanned`. -/
def SearchSession.setFilesScanned (s : SearchSession) (count : Int) : SearchSession :=
  match s.analytics with
  | none => s
  | some a => { s with analytics := some { a with filesScanned := count } }

/-- Model of `SearchSession.prototype.setPattern`. -/
def SearchSession.setPattern (s : SearchSession) (pattern : String) : SearchSession :=
  match s.analytics with
  | none => s
  | some a => { s with analytics := some { a with pattern := some pattern } }

/-- Model of `SearchSession.prototype.addRankingFactor` (the
`rankingFactors = rankingFactors || []` defaulting included). -/
def SearchSession.addRankingFactor (s : SearchSession) (f : RankingFactor) : SearchSession :=
  match s.analytics with
  | none => s
  | some a =>
    { s with analytics := some { a with
        rankingFactors := some ((a.rankingFactors.getD []) ++ [f]) } }

/-- Model of `SearchSession.prototype.complete` (testBenchAnalytics.ts lines
499-505): when the session is active, `executionTimeMs` is recomputed from
the start instant and the (updated) record is returned for the completion
callback; when inactive, nothing happens. There is no finalized flag in the
source: the analytics field stays non-null afterwards. -/
def SearchSession.complete (s : SearchSession) (now : ℚ) : SearchSession × Option SearchAnalytics :=
  match s.analytics with
  | none => (s, none)
  | some a =>
    let a' := { a with executionTimeMs := now - s.startTime }
    ({ s with analytics := some a' }, some a')

/-- The mutable state of the `TestBenchAnalytics` singleton that the grep
paths touch: the process-wide search history and the enabled flag. -/
structure TestBenchState where
  searchHistory : List SearchAnalytics
  analyticsEnabled : Bool
deriving DecidableEq, Repr

/-- Model of `determineSearchStrategy(query, searchType)`
(testBenchAnalytics.ts lines 139-161). -/
def determineSearchStrategy (query : String) (searchType : SearchType) : String :=
  let strategies : List String :=
    (if jsIncludes query "*" ∨ jsIncludes query "?" then ["glob-pattern"] else [])
    ++ (if query.data.any (fun c => regexMetachars.contains c) then ["regex-search"] else [])
    ++ (if (splitOnChar query ' ').length > 1 then ["multi-term"] else [])
    ++ (if searchType = SearchType.embedding then ["semantic-similarity"] else [])
    ++ ["tool-" ++ searchTypeName searchType]
  jsJoin "+" strategies

/-- Model of `TestBenchAnalytics.prototype.startSearch` (testBenchAnalytics.ts
lines 116-137): a null session when analytics is disabled, otherwise a fresh
record with the captured start instant. The singleton state itself is not
changed at start; the completion callback is modeled by `sessionComplete`. -/
def startSearch (st : TestBenchState) (query : String) (searchType : SearchType)
    (targetPath : String) (timestamp : Int) (now : ℚ) : SearchSession :=
  if !st.analyticsEnabled then { analytics := none, startTime := now }
  else
    { analytics := some
        { timestamp := timestamp
          query := query
          searchType := searchType
          targetPath := targetPath
          pattern := none
          executionTimeMs := 0
          resultsFound := 0
          filesScanned := 0
          matchDetails := []
          searchStrategy := determineSearchStrategy query searchType
          rankingFactors := none
          toolDecisionReason := none
          searchParameters := none }
      startTime := now }

/-- Model of `session.complete()` together with the completion callback that
`startSearch` registered: the completed record is appended to the
process-wide `searchHistory` (testBenchAnalytics.ts lines 133-136). -/
def sessionComplete (st : TestBenchState) (s : SearchSession) (now : ℚ) :
    SearchSession × TestBenchState :=
  match s.complete now with
  | (s', none) => (s', st)
  | (s', some a) => (s', { st with searchHistory := st.searchHistory ++ [a] })

/-! ### External collaborators and effects

The collaborators of the tool (schema validator, RegExp engine, file system,
`child_process.spawn`, glob traversal, workspace policy) are modeled as an
environment record, and every file-system or process access the embedded
control flow performs is logged in an effect trace. -/

/-- Outcome of `fs.statSync` on a candidate search directory. -/
inductive DirStat where
  | dir
  | file
  | notFound
deriving DecidableEq, Repr

/-- Outcome of a spawned `git grep` child process: either the `error` event
(spawn failure) or the `close` event with exit code, buffered stdout and
buffered stderr. -/
inductive ProcOutcome where
  | spawnFailed
  | exited (code : Int) (stdout : String) (stderr : String)
deriving DecidableEq, Repr

/-- Outcome of a spawned system `grep` child process; its stderr arrives as a
list of chunks because the handler filters chunks individually. -/
inductive SysProcOutcome where
  | spawnFailed
  | exited (code : Int) (stdout : String) (stderrChunks : List String)
deriving DecidableEq, Repr

/-- Parameters of the grep tool (`GrepToolParams`); `include` is a Lean
keyword, so the field is named `includeGlob`. -/
structure GrepToolParams where
  pattern : String
  path : Option String
  includeGlob : Option String
deriving DecidableEq, Repr

/-- JS truthiness of an optional string (`undefined` and `""` are falsy). -/
def optTruthy : Option String → Bool
  | none => false
  | some s => s ≠ ""

/-- Normalize an optional string to `none` when falsy, mirroring the
truthiness tests the source performs on `include`. -/
def truthyOpt (o : Option String) : Option String :=
  if optTruthy o then o else none

/-- The environment of external collaborators. `regexTestI` models
`new RegExp(pattern, 'i').test(line)`; `runGitGrep` and `runSystemGrep`
take the working directory, the pattern and the (truthy) include filter;
`globFiles` models the fallback `globStream` traversal (include glob
defaulted to `**/*`, the five fallback ignore patterns applied);
`countGlobFiles` models the analytics file-count traversal (three ignore
patterns). -/
structure GrepEnv where
  targetDir : String
  workspaceDirectories : List String
  isPathWithinWorkspace : String → Bool
  dirStat : String → DirStat
  schemaErrors : GrepToolParams → Option String
  regexValid : String → Bool
  regexErrorMessage : String → String
  regexTestI : String → String → Bool
  isGitRepository : String → Bool
  gitAvailable : Bool
  grepAvailable : Bool
  runGitGrep : String → String → Option String → ProcOutcome
  runSystemGrep : String → String → Option String → SysProcOutcome
  globFiles : String → Option String → List String
  countGlobFiles : String → Option String → Nat
  readFile : String → Option String
  statFile : String → Option (Int × Int)

/-- File-system and process accesses performed by the embedded control flow. -/
inductive Effect where
  | statDir (path : String)
  | checkCommand (name : String)
  | spawn (name : String)
  | globScan (dir : String)
  | fsRead (path : String)
  | fsStat (path : String)
deriving DecidableEq, Repr

/-! ### Strategy runners (grep.ts lines 410-611) -/

/-- Test for the benign-stderr regex `/grep:.*: Is a directory/i`: some
occurrence of `grep:` is followed, with no line terminator in between, by an
occurrence of `: Is a directory` (case-insensitively). -/
def matchesGrepIsDirectory (s : String) : Bool :=
  let l := (jsToLower s).data
  (List.range (l.length + 1)).any (fun i =>
    leadsWith (l.drop i) "grep:".data &&
    (List.range (l.length + 1)).any (fun j =>
      decide (i + 5 ≤ j) && leadsWith (l.drop j) ": is a directory".data &&
      ((l.drop (i + 5)).take (j - (i + 5))).all (fun c => !(c == '\n' || c == '\r'))))

/-- Is a system-grep stderr chunk suppressed as harmless (grep.ts lines
495-504)? -/
def isSuppressedStderrChunk (chunk : String) : Bool :=
  jsIncludes chunk "Permission denied" || matchesGrepIsDirectory chunk

/-- The diagnostic output a system-grep run leaves after suppression: the
non-suppressed chunks concatenated and trimmed (grep.ts lines 510-513). -/
def nonSuppressedStderr (chunks : List String) : String :=
  jsTrim (String.join (chunks.filter (fun c => !isSuppressedStderrChunk c)))

/-- Result of one strategy attempt: a match list, or failure (which makes the
caller fall through to the next strategy). -/
inductive StrategyResult where
  | ok (matchList : List GrepMatch)
  | failed
deriving DecidableEq, Repr

/-- Exit handling of the `git grep` child (grep.ts lines 449-462): code 0
parses stdout, code 1 resolves the empty output (no matches), anything else
rejects, which the surrounding catch turns into failure of this strategy. -/
def gitGrepAttempt (outcome : ProcOutcome) (absolutePath : String) : StrategyResult :=
  match outcome with
  | .spawnFailed => .failed
  | .exited code stdout _stderr =>
    if code = 0 then .ok (parseGrepOutput stdout absolutePath)
    else if code = 1 then .ok (parseGrepOutput "" absolutePath)
    else .failed

/-- Exit handling of the system `grep` child (grep.ts lines 505-527): code 0
parses stdout, code 1 resolves empty, any other code rejects only when
non-suppressed diagnostic output remains, and otherwise resolves empty. -/
def systemGrepAttempt (outcome : SysProcOutcome) (absolutePath : String) : StrategyResult :=
  match outcome with
  | .spawnFailed => .failed
  | .exited code stdout stderrChunks =>
    let stderrData := nonSuppressedStderr stderrChunks
    if code = 0 then .ok (parseGrepOutput stdout absolutePath)
    else if code = 1 then .ok (parseGrepOutput "" absolutePath)
    else if stderrData ≠ "" then .failed
    else .ok (parseGrepOutput "" absolutePath)

/-- The in-process fallback (grep.ts lines 552-604): traverse the glob
stream, read each file, split its content on `/\r?\n/` and keep every line
the case-insensitive compiled pattern matches, with 1-based line numbers and
root-relative paths (base-name fallback). Unreadable files are skipped. -/
def jsFallbackSearch (env : GrepEnv) (pattern absolutePath : String)
    (includeGlob : Option String) : List GrepMatch × List Effect :=
  let files := env.globFiles absolutePath includeGlob
  let matchList := files.flatMap (fun fileAbsolutePath =>
    match env.readFile fileAbsolutePath with
    | none => []
    | some content =>
      (splitLinesJS content).enum.filterMap (fun p =>
        if env.regexTestI pattern p.2 then
          some { filePath :=
                   (let r := pathRelative absolutePath fileAbsolutePath
                    if r = "" then pathBasename fileAbsolutePath else r)
                 lineNumber := (p.1 : Int) + 1
                 line := p.2 }
        else none))
  (matchList, [Effect.globScan absolutePath] ++ files.map Effect.fsRead)

/-- Strategies 2 and 3 of `performGrepSearch`: the system-grep attempt (when
the executable is available) with fall-through to the in-process fallback. -/
def systemPhase (env : GrepEnv) (pattern absolutePath : String)
    (includeGlob : Option String) : List GrepMatch × List Effect :=
  let e0 := [Effect.checkCommand "grep"]
  if env.grepAvailable then
    match systemGrepAttempt (env.runSystemGrep absolutePath pattern includeGlob) absolutePath with
    | .ok ms => (ms, e0 ++ [Effect.spawn "grep"])
    | .failed =>
      let r := jsFallbackSearch env pattern absolutePath includeGlob
      (r.1, e0 ++ [Effect.spawn "grep"] ++ r.2)
  else
    let r := jsFallbackSearch env pattern absolutePath includeGlob
    (r.1, e0 ++ r.2)

/-- Model of `performGrepSearch(options)` (grep.ts lines 410-611): the
three-strategy chain. The `git` availability check is only spawned when the
directory is version controlled (the `&&` short-circuit of line 422). -/
def performGrepSearch (env : GrepEnv) (pattern absolutePath : String)
    (includeRaw : Option String) : List GrepMatch × List Effect :=
  let includeGlob := truthyOpt includeRaw
  let isGit := env.isGitRepository absolutePath
  if isGit ∧ env.gitAvailable then
    match gitGrepAttempt (env.runGitGrep absolutePath pattern includeGlob) absolutePath with
    | .ok ms => (ms, [Effect.checkCommand "git", Effect.spawn "git"])
    | .failed =>
      let r := systemPhase env pattern absolutePath includeGlob
      (r.1, [Effect.checkCommand "git", Effect.spawn "git"] ++ r.2)
  else if isGit then
    let r := systemPhase env pattern absolutePath includeGlob
    (r.1, [Effect.checkCommand "git"] ++ r.2)
  else
    systemPhase env pattern absolutePath includeGlob

/-! ### Analytics enrichment (grep.ts lines 613-839) -/

/-- Rendering of `q.toFixed(2)` for the explanation strings (rounding to two
decimals; the float-noise corner cases of JS `toFixed` are not modeled, the
claims never inspect these strings). -/
def qToFixed2 (q : ℚ) : String :=
  let a := if q < 0 then -q else q
  let cents : Int := Rat.floor (a * 100 + 1/2)
  let whole := cents / 100
  let frac := cents % 100
  (if q < 0 ∧ cents ≠ 0 then "-" else "")
    ++ toString whole ++ "." ++ (if frac < 10 then "0" else "") ++ toString frac

/-- Model of `createMatchAnalytics(match, pattern, searchPath)` (grep.ts
lines 684-729): best-effort stat and two-line context around the match, with
zero/empty defaults when the stat or read fails. -/
def createMatchAnalytics (env : GrepEnv) (m : GrepMatch) (pattern searchPath : String) :
    MatchAnalytics × List Effect :=
  let fullPath := pathResolve searchPath m.filePath
  let enrich : (Int × Int × String × String) × List Effect :=
    match env.statFile fullPath with
    | none => ((0, 0, "", ""), [Effect.fsStat fullPath])
    | some (sz, mt) =>
      match env.readFile fullPath with
      | none => ((sz, mt, "", ""), [Effect.fsStat fullPath, Effect.fsRead fullPath])
      | some content =>
        let lines := splitOnChar content '\n'
        let lineIndex : Int := m.lineNumber - 1
        let contextBefore := jsJoin "\n" (jsSlice lines (max 0 (lineIndex - 2)) lineIndex)
        let contextAfter := jsJoin "\n"
          (jsSlice lines (lineIndex + 1) (min (lines.length : Int) (lineIndex + 3)))
        ((sz, mt, contextBefore, contextAfter), [Effect.fsStat fullPath, Effect.fsRead fullPath])
  ({ filePath := m.filePath
     lineNumber := m.lineNumber
     matchText := m.line
     contextBefore := enrich.1.2.2.1
     contextAfter := enrich.1.2.2.2
     relevanceScore := calculateRelevanceScore m pattern
     matchReason := getMatchReason env.regexTestI m pattern
     fileSize := enrich.1.1
     fileLastModified := enrich.1.2.1 },
   enrich.2)

/-- Model of `addSearchRankingFactors(session, options, matches,
filesScanned)` (grep.ts lines 791-839). -/
def addSearchRankingFactors (session : SearchSession) (pattern : String)
    (includeRaw : Option String) (matchList : List GrepMatch) (filesScanned : Nat) :
    SearchSession :=
  if !session.isActive then session
  else
    let patternComplexity := calculatePatternComplexity pattern
    let session := session.addRankingFactor
      { factor := "Pattern Complexity"
        weight := 0.3
        value := patternComplexity
        impact := patternComplexity * 0.3
        explanation := "Pattern \"" ++ pattern ++ "\" has "
          ++ (if patternComplexity > 0.5 then "high" else "low")
          ++ " complexity (" ++ qToFixed2 patternComplexity ++ ")" }
    let scopeFactor : ℚ := if filesScanned > 100 then 1.0 else (filesScanned : ℚ) / 100
    let session := session.addRankingFactor
      { factor := "Search Scope"
        weight := 0.2
        value := scopeFactor
        impact := scopeFactor * 0.2
        explanation := "Searched " ++ toString filesScanned ++ " files (scope factor: "
          ++ qToFixed2 scopeFactor ++ ")" }
    let resultDensity : ℚ :=
      if filesScanned > 0 then (matchList.length : ℚ) / (filesScanned : ℚ) else 0
    let session := session.addRankingFactor
      { factor := "Result Density"
        weight := 0.4
        value := resultDensity
        impact := resultDensity * 0.4
        explanation := "Found " ++ toString matchList.length ++ " matches in "
          ++ toString filesScanned ++ " files (" ++ qToFixed2 (resultDensity * 100)
          ++ "% hit rate)" }
    if optTruthy includeRaw then
      session.addRankingFactor
        { factor := "File Filter"
          weight := 0.1
          value := 1.0
          impact := 0.1
          explanation := "Applied file filter: " ++ includeRaw.getD "" }
    else session

/-- Model of `performGrepSearchWithAnalytics(options)` (grep.ts lines
616-679): run the strategy chain, and when the session is active count the
files, enrich and record every match, and add the ranking factors. The match
list returned is the one the strategy chain produced. -/
def performGrepSearchWithAnalytics (env : GrepEnv) (pattern absolutePath : String)
    (includeRaw : Option String) (session : SearchSession) :
    List GrepMatch × SearchSession × List Effect :=
  let r := performGrepSearch env pattern absolutePath includeRaw
  let matchList := r.1
  if session.isActive then
    let filesScanned := env.countGlobFiles absolutePath (truthyOpt includeRaw)
    let session := session.setFilesScanned (filesScanned : Int)
    let sessAndEffs := matchList.foldl
      (fun acc m =>
        let ca := createMatchAnalytics env m pattern absolutePath
        (SearchSession.addMatch acc.1 ca.1, acc.2 ++ ca.2))
      (session, r.2 ++ [Effect.globScan absolutePath])
    let session := addSearchRankingFactors sessAndEffs.1 pattern includeRaw matchList filesScanned
    (matchList, session, sessAndEffs.2)
  else (matchList, session, r.2)

/-! ### Validation and the orchestrator (`execute`, grep.ts lines 94-294) -/

/-- Model of `resolveAndValidatePath(relativePath)` (grep.ts lines 102-135):
`none` for a falsy path (search all workspace directories); otherwise resolve
against the target directory, check workspace boundaries, then stat. A
non-directory or missing target surfaces as an error either way (the
catch clause of the source re-wraps both into a `Failed to access path stats` message,
because the inner `Path is not a directory` error carries no Node error code
and a missing path raises `ENOENT`, which the first guard excludes). -/
def resolveAndValidatePath (env : GrepEnv) (relativePath : Option String) :
    Except String (Option String) × List Effect :=
  if !optTruthy relativePath then (.ok none, [])
  else
    let rel := relativePath.getD ""
    let targetPath := pathResolve env.targetDir rel
    if !env.isPathWithinWorkspace targetPath then
      (.error ("Path validation failed: Attempted path \"" ++ rel
        ++ "\" resolves outside the allowed workspace directories: "
        ++ jsJoin ", " env.workspaceDirectories), [])
    else
      match env.dirStat targetPath with
      | .dir => (.ok (some targetPath), [Effect.statDir targetPath])
      | .file =>
        (.error ("Failed to access path stats for " ++ targetPath
          ++ ": Error: Path is not a directory: " ++ targetPath),
         [Effect.statDir targetPath])
      | .notFound =>
        (.error ("Failed to access path stats for " ++ targetPath
          ++ ": Error: ENOENT: no such file or directory, stat \x27" ++ targetPath ++ "\x27"),
         [Effect.statDir targetPath])

/-- Model of `validateToolParams(params)` (grep.ts lines 142-164): schema
validation, then regex syntax validation, then (only when a truthy path is
supplied) path validation. Returns the error message, if any, plus the
file-system accesses performed. -/
def validateToolParams (env : GrepEnv) (params : GrepToolParams) :
    Option String × List Effect :=
  match env.schemaErrors params with
  | some errors => (some errors, [])
  | none =>
    if !env.regexValid params.pattern then
      (some ("Invalid regular expression pattern provided: " ++ params.pattern
        ++ ". Error: " ++ env.regexErrorMessage params.pattern), [])
    else if optTruthy params.path then
      match resolveAndValidatePath env params.path with
      | (.error e, effs) => (some e, effs)
      | (.ok _, effs) => (none, effs)
    else (none, [])

/-! ### Grouping and rendering (grep.ts lines 242-284) -/

/-- Ordering of matches by line number (the comparator
`(a, b) => a.lineNumber - b.lineNumber`). -/
def lineLe (a b : GrepMatch) : Prop :=
  a.lineNumber ≤ b.lineNumber

instance : DecidableRel lineLe :=
  fun a b => inferInstanceAs (Decidable (a.lineNumber ≤ b.lineNumber))

instance : IsTotal GrepMatch lineLe :=
  ⟨fun a b => Int.le_total a.lineNumber b.lineNumber⟩

instance : IsTrans GrepMatch lineLe :=
  ⟨fun _ _ _ h h' => le_trans h h'⟩

/-- Model of `Array.prototype.sort` with the numeric line-number comparator:
a stable sort into non-decreasing line-number order. -/
def sortByLineNumber (l : List GrepMatch) : List GrepMatch :=
  List.insertionSort lineLe l

/-- One step of the `reduce` that groups matches by file (grep.ts lines
249-260): append the match to the group of its file (creating the group at the
end of the insertion-ordered record if needed) and re-sort that group. -/
def insertGrouped (acc : List (String × List GrepMatch)) (m : GrepMatch) :
    List (String × List GrepMatch) :=
  if (acc.lookup m.filePath).isSome then
    acc.map (fun kv => if kv.1 = m.filePath then (kv.1, sortByLineNumber (kv.2 ++ [m])) else kv)
  else acc ++ [(m.filePath, sortByLineNumber [m])]

/-- The `matchesByFile` record: insertion-ordered association list from file
path to its sorted matches. -/
def groupByFile (matchList : List GrepMatch) : List (String × List GrepMatch) :=
  matchList.foldl insertGrouped []

/-- The `params.path || '.'` display string. -/
def searchDirDisplay (params : GrepToolParams) : String :=
  if optTruthy params.path then params.path.getD "" else "."

/-- The scope description of the summary line (grep.ts lines 231-240). -/
def searchLocationDescription (env : GrepEnv) (searchDirAbs : Option String)
    (params : GrepToolParams) : String :=
  match searchDirAbs with
  | none =>
    let numDirs := env.workspaceDirectories.length
    if numDirs > 1 then "across " ++ toString numDirs ++ " workspace directories"
    else "in the workspace directory"
  | some _ => "in path \"" ++ searchDirDisplay params ++ "\""

/-- The `(filter: "...")` suffix of the summary line. -/
def filterSuffix (params : GrepToolParams) : String :=
  if optTruthy params.includeGlob then
    " (filter: \"" ++ params.includeGlob.getD "" ++ "\")"
  else ""

/-- The `ToolResult` fields the orchestrator produces. -/
structure ToolResultM where
  llmContent : String
  returnDisplay : String
deriving DecidableEq, Repr

/-- Rendering of the grouped matches (grep.ts lines 262-282): the summary
header, then one block per file listing `L<line>: <trimmed text>`, the whole
text trimmed. -/
def renderMatches (params : GrepToolParams) (locDesc : String)
    (allMatches : List GrepMatch) : String :=
  let matchesByFile := groupByFile allMatches
  let matchCount := allMatches.length
  let matchTerm := if matchCount = 1 then "match" else "matches"
  let header := "Found " ++ toString matchCount ++ " " ++ matchTerm ++ " for pattern \""
    ++ params.pattern ++ "\" " ++ locDesc ++ filterSuffix params ++ ":\n---\n"
  let body := String.join (matchesByFile.map (fun kv =>
    "File: " ++ kv.1 ++ "\n"
    ++ String.join (kv.2.map (fun m => "L" ++ toString m.lineNumber ++ ": " ++ jsTrim m.line ++ "\n"))
    ++ "---\n"))
  jsTrim (header ++ body)

/-- The per-root body of the search loop of `execute` (grep.ts lines
211-229): run the analytics-wrapped search on one root, prefix the file
paths with the base name of the root when several roots are searched (`multi`),
and append matches, session state and effects to the accumulator. -/
def execStep (env : GrepEnv) (params : GrepToolParams) (multi : Bool)
    (acc : List GrepMatch × SearchSession × List Effect) (searchDir : String) :
    List GrepMatch × SearchSession × List Effect :=
  let r := performGrepSearchWithAnalytics env params.pattern searchDir
    params.includeGlob acc.2.1
  let newMatches :=
    if multi then
      r.1.map (fun m => { m with filePath := pathJoin (pathBasename searchDir) m.filePath })
    else r.1
  (acc.1 ++ newMatches, r.2.1, acc.2.2 ++ r.2.2)

/-- Model of `execute(params, signal)` (grep.ts lines 173-294): start the
analytics session, validate, resolve the scope, run the per-root searches
(prefixing file paths with the base name of the root when several roots are
searched), group and render, and finalize the session exactly where the
source calls `session.complete()`. Returns the tool result, the final
singleton state and the effect trace. `timestamp` models `Date.now()`, `t0`
the `performance.now()` at session start and `t1` the one at completion. -/
def executeModel (env : GrepEnv) (st : TestBenchState) (params : GrepToolParams)
    (timestamp : Int) (t0 t1 : ℚ) : ToolResultM × TestBenchState × List Effect :=
  let session := startSearch st params.pattern SearchType.grep
    (if optTruthy params.path then params.path.getD "" else ".") timestamp t0
  let session := session.setPattern params.pattern
  match validateToolParams env params with
  | (some validationError, vEffs) =>
    let r := sessionComplete st session t1
    ({ llmContent := "Error: Invalid parameters provided. Reason: " ++ validationError
       returnDisplay := "Model provided invalid parameters. Error: " ++ validationError },
     r.2, vEffs)
  | (none, vEffs) =>
    match resolveAndValidatePath env params.path with
    | (.error e, rEffs) =>
      let r := sessionComplete st session t1
      ({ llmContent := "Error during grep search operation: " ++ e
         returnDisplay := "Error: " ++ e },
       r.2, vEffs ++ rEffs)
    | (.ok searchDirAbs, rEffs) =>
      let searchDirectories : List String :=
        match searchDirAbs with
        | none => env.workspaceDirectories
        | some d => [d]
      let folded := searchDirectories.foldl
        (execStep env params (decide (searchDirectories.length > 1)))
        ([], session, vEffs ++ rEffs)
      let allMatches := folded.1
      let locDesc := searchLocationDescription env searchDirAbs params
      if allMatches.length = 0 then
        let r := sessionComplete st folded.2.1 t1
        ({ llmContent := "No matches found for pattern \"" ++ params.pattern ++ "\" "
             ++ locDesc ++ filterSuffix params ++ "."
           returnDisplay := "No matches found" },
         r.2, folded.2.2)
      else
        let r := sessionComplete st folded.2.1 t1
        ({ llmContent := renderMatches params locDesc allMatches
           returnDisplay := "Found " ++ toString allMatches.length ++ " "
             ++ (if allMatches.length = 1 then "match" else "matches") },
         r.2, folded.2.2)

/-! ### Helper lemmas -/

/-- A join whose first element has nonempty data is nonempty. -/
theorem jsJoin_ne_empty (sep r : String) (rest : List String) (hr : r.data ≠ []) :
    jsJoin sep (r :: rest) ≠ "" := by
  cases rest with
  | nil =>
    intro h
    exact hr (by rw [show r = "" from h])
  | cons b bs =>
    intro h
    have : (r ++ sep ++ jsJoin sep (b :: bs)).data = [] := by
      rw [show r ++ sep ++ jsJoin sep (b :: bs) = "" from h]
    rw [String.data_append, String.data_append, List.append_assoc] at this
    exact hr (List.append_eq_nil.mp this).1

/-- The defaulted reason string is nonempty when every reason is. -/
theorem reasonDefault_ne (L : List String) (hL : ∀ r ∈ L, r.data ≠ []) :
    (if L = [] then "pattern match" else jsJoin ", " L) ≠ "" := by
  cases L with
  | nil => decide
  | cons r rest =>
    rw [if_neg (by simp)]
    exact jsJoin_ne_empty ", " r rest (hL r (List.mem_cons_self r rest))

/-- Bridging the two shapes of the `matchReason` defaulting test. -/
theorem reasonDefault_eq (L : List String) (hL : ∀ r ∈ L, r.data ≠ []) :
    (if jsJoin ", " L = "" then "pattern match" else jsJoin ", " L)
      = (if L = [] then "pattern match" else jsJoin ", " L) := by
  cases L with
  | nil => rfl
  | cons r rest =>
    rw [if_neg (jsJoin_ne_empty ", " r rest (hL r (List.mem_cons_self r rest))),
      if_neg (by simp)]

/-- Every element of the reason list has nonempty data. -/
theorem matchReasons_elems_ne (rt : String → String → Bool) (m : GrepMatch)
    (pattern : String) :
    ∀ r ∈ ((if jsIncludes (jsToLower m.line) (jsToLower pattern) then
              ["exact pattern match"] else [])
      ++ (if rt pattern m.line then ["regex pattern match"] else [])
      ++ (if pathExtname m.filePath ≠ "" then
            ["found in " ++ pathExtname m.filePath ++ " file"] else [])
      ++ (if m.lineNumber < 10 then ["near file beginning"] else [])),
      r.data ≠ [] := by
  intro r hr
  rcases List.mem_append.mp hr with h | h
  · rcases List.mem_append.mp h with h | h
    · rcases List.mem_append.mp h with h | h
      · split at h
        · rw [show r = "exact pattern match" from by simpa using h]; decide
        · exact absurd h (by simp)
      · split at h
        · rw [show r = "regex pattern match" from by simpa using h]; decide
        · exact absurd h (by simp)
    · split at h
      · rw [show r = "found in " ++ pathExtname m.filePath ++ " file" from by simpa using h]
        rw [String.data_append, String.data_append]
        simp
      · exact absurd h (by simp)
  · split at h
    · rw [show r = "near file beginning" from by simpa using h]; decide
    · exact absurd h (by simp)

/-- The empty output parses to no matches. -/
theorem parseGrepOutput_empty (basePath : String) : parseGrepOutput "" basePath = [] := rfl

/-! ### Claims C3, C4, C9 -/

/-- C3: for every match line and pattern, the per-match relevance score of
`calculateRelevanceScore` equals 0.5 plus the independent increments of the
claim (case-insensitive containment +0.2, trimmed length under 100 +0.1 and
under 50 +0.1, `indexOf` position below 10 +0.1, favored extension +0.1),
summed and clamped to at most 1. -/
theorem relevance_score_is_claimed_sum (m : GrepMatch) (pattern : String) :
    calculateRelevanceScore m pattern = relevanceScoreSpec m pattern := by
  unfold calculateRelevanceScore relevanceScoreSpec
  by_cases h1 : jsIncludes (jsToLower m.line) (jsToLower pattern) = true <;>
  by_cases h2 : (jsTrim m.line).data.length < 100 <;>
  by_cases h3 : (jsTrim m.line).data.length < 50 <;>
  by_cases h4 : jsIndexOfStr (jsToLower (jsTrim m.line)) (jsToLower pattern) < 10 <;>
  by_cases h5 : favoredExtensions.contains (jsToLower (pathExtname m.filePath)) = true <;>
  simp only [h1, h2, h3, h4, h5, Bool.false_eq_true, if_true, if_false, if_neg, if_pos] <;>
  norm_num

/-- C4 (amended): for every pattern, `calculatePatternComplexity` equals the
claimed capped sum, with the shorthand-escape bonus firing for the `\b`,
`\w` and `\d` escapes only (the whitespace escape `\s` of the original claim
is not tested by the code). -/
theorem pattern_complexity_amended (pattern : String) :
    calculatePatternComplexity pattern = patternComplexityAmended pattern := by
  simp only [calculatePatternComplexity, patternComplexityAmended]
  rw [min_comm]
  congr 1
  by_cases hm : metaCount pattern > 0
  · rw [if_pos hm]
    split_ifs <;> ring
  · rw [if_neg hm]
    have h0 : metaCount pattern = 0 := by omega
    rw [h0]
    rw [show ((0 : ℕ) : ℚ) * 0.1 = 0 by norm_num]
    rw [min_eq_left (by norm_num : (0 : ℚ) ≤ 0.5)]
    split_ifs <;> ring

/-- C4 (counterexample): at the pattern `\s` the code computes 0.12 (one
metacharacter, two characters, no tested shorthand escape) while the claimed
formula, which counts the whitespace escape `\s`, gives 0.32. -/
theorem pattern_complexity_counterexample :
    calculatePatternComplexity "\\s" = 12/100
    ∧ patternComplexityClaim "\\s" = 32/100
    ∧ calculatePatternComplexity "\\s" ≠ patternComplexityClaim "\\s" := by
  have h1 : metaCount "\\s" = 1 := by decide
  have h2 : jsToLower "\\s" = "\\s" := by decide
  have h3 : jsToUpper "\\s" = "\\S" := by decide
  have h4 : jsIncludes "\\s" "\\b" = false := by decide
  have h5 : jsIncludes "\\s" "\\w" = false := by decide
  have h6 : jsIncludes "\\s" "\\d" = false := by decide
  have h7 : jsIncludes "\\s" "\\s" = true := by decide
  have h8 : ("\\s" : String).data.length = 2 := by decide
  refine ⟨?_, ?_, ?_⟩
  · simp only [calculatePatternComplexity, h1, h2, h3, h4, h5, h6, h8]
    norm_num [min_def]
  · simp only [patternComplexityClaim, h1, h2, h3, h4, h5, h6, h7, h8]
    norm_num [min_def]
  · simp only [calculatePatternComplexity, patternComplexityClaim,
      h1, h2, h3, h4, h5, h6, h7, h8]
    norm_num [min_def]

/-- C9: for every match line and pattern the relevance score lies in `[0,1]`,
and the match reason is never empty: it is the comma-joined list of the
applicable reasons with the `"pattern match"` default when none apply
(`matchReasonSpec`). -/
theorem relevance_bounds_and_match_reason (rt : String → String → Bool)
    (m : GrepMatch) (pattern : String) :
    0 ≤ calculateRelevanceScore m pattern
    ∧ calculateRelevanceScore m pattern ≤ 1
    ∧ getMatchReason rt m pattern ≠ ""
    ∧ getMatchReason rt m pattern = matchReasonSpec rt m pattern := by
  have hEq : getMatchReason rt m pattern = matchReasonSpec rt m pattern := by
    unfold getMatchReason matchReasonSpec
    exact reasonDefault_eq _ (matchReasons_elems_ne rt m pattern)
  refine ⟨?_, ?_, ?_, hEq⟩
  · unfold calculateRelevanceScore
    rw [le_min_iff]
    constructor
    · norm_num
    · split_ifs <;> norm_num
  · unfold calculateRelevanceScore
    exact min_le_left _ _
  · rw [hEq]
    unfold matchReasonSpec
    exact reasonDefault_ne _ (matchReasons_elems_ne rt m pattern)

/-! ### Claims C6 and C10: the grep-output parser -/

/-- C6: the parser splits on the platform line terminator; a blank line or a
line without two colons is discarded; an emitted match takes the text before
the first colon (re-expressed relative to the search root via
`reexpressRelative`, which falls back to the base name) as the file path and
the text after the second colon as the line content. -/
theorem parse_grep_output_colon_splitting (output basePath line : String) (m : GrepMatch) :
    (parseGrepOutput output basePath
      = if output = "" then [] else (splitOnChar output eol).filterMap (parseGrepLine basePath))
    ∧ (jsTrim line = "" → parseGrepLine basePath line = none)
    ∧ (jsIndexOfCharFrom line ':' 0 = none → parseGrepLine basePath line = none)
    ∧ (∀ i, jsIndexOfCharFrom line ':' 0 = some i →
        jsIndexOfCharFrom line ':' (i + 1) = none → parseGrepLine basePath line = none)
    ∧ (parseGrepLine basePath line = some m →
        ∃ i j, jsIndexOfCharFrom line ':' 0 = some i
          ∧ jsIndexOfCharFrom line ':' (i + 1) = some j
          ∧ m.filePath = reexpressRelative basePath (strTake line i)
          ∧ m.line = strDrop line (j + 1)) := by
  refine ⟨rfl, ?_, ?_, ?_, ?_⟩
  · intro ht
    unfold parseGrepLine
    rw [if_pos ht]
  · intro h1
    unfold parseGrepLine
    split
    · rfl
    · simp only [h1]
  · intro i h1 h2
    unfold parseGrepLine
    split
    · rfl
    · simp only [h1, h2]
  · intro hm
    unfold parseGrepLine at hm
    split at hm
    · exact absurd hm (by simp)
    · rcases h1 : jsIndexOfCharFrom line ':' 0 with _ | i
      · simp only [h1] at hm; exact absurd hm (by simp)
      · simp only [h1] at hm
        rcases h2 : jsIndexOfCharFrom line ':' (i + 1) with _ | j
        · simp only [h2] at hm; exact absurd hm (by simp)
        · simp only [h2] at hm
          rcases h3 : parseIntJS (strSlice line (i + 1) j) with _ | n
          · simp only [h3] at hm; exact absurd hm (by simp)
          · simp only [h3] at hm
            injection hm with hinj
            subst hinj
            exact ⟨i, j, rfl, h2, rfl, rfl⟩

/-- C6 (witness): concrete instances of the parser characterization, obtained
from the theorem: a colon-free line is discarded, and a well-formed line with
extra colons in the content keeps everything after the second colon. -/
theorem parse_grep_output_colon_splitting_witness :
    parseGrepLine "/repo" "no colons here" = none
    ∧ parseGrepLine "/repo" "" = none
    ∧ (∃ i j, jsIndexOfCharFrom "src/a.ts:3:let x: Int = 1" ':' 0 = some i
        ∧ jsIndexOfCharFrom "src/a.ts:3:let x: Int = 1" ':' (i + 1) = some j
        ∧ (GrepMatch.mk "src/a.ts" 3 "let x: Int = 1").filePath
            = reexpressRelative "/repo" (strTake "src/a.ts:3:let x: Int = 1" i)
        ∧ (GrepMatch.mk "src/a.ts" 3 "let x: Int = 1").line
            = strDrop "src/a.ts:3:let x: Int = 1" (j + 1)) := by
  refine ⟨?_, ?_, ?_⟩
  · exact (parse_grep_output_colon_splitting "" "/repo" "no colons here"
      (GrepMatch.mk "" 0 "")).2.2.1 (by decide)
  · exact (parse_grep_output_colon_splitting "" "/repo" ""
      (GrepMatch.mk "" 0 "")).2.1 (by decide)
  · exact (parse_grep_output_colon_splitting "" "/repo" "src/a.ts:3:let x: Int = 1"
      (GrepMatch.mk "src/a.ts" 3 "let x: Int = 1")).2.2.2.2 (by decide)

/-- C10: a line with two colons is emitted only when `parseInt` succeeds on
the text between them (the emitted line number being the parsed value); the
line `file.txt:abc:content` is silently discarded (the parser is total and
returns no match), while `file.txt:12abc:content` is accepted with line
number 12. -/
theorem parse_grep_line_number_gate (basePath line : String) (m : GrepMatch) :
    (parseGrepLine basePath line = some m →
      ∃ i j, jsIndexOfCharFrom line ':' 0 = some i
        ∧ jsIndexOfCharFrom line ':' (i + 1) = some j
        ∧ parseIntJS (strSlice line (i + 1) j) = some m.lineNumber)
    ∧ parseGrepLine basePath "file.txt:abc:content" = none
    ∧ parseGrepLine basePath "file.txt:12abc:content"
        = some ⟨reexpressRelative basePath "file.txt", 12, "content"⟩ := by
  refine ⟨?_, ?_, ?_⟩
  · intro hm
    unfold parseGrepLine at hm
    split at hm
    · exact absurd hm (by simp)
    · rcases h1 : jsIndexOfCharFrom line ':' 0 with _ | i
      · simp only [h1] at hm; exact absurd hm (by simp)
      · simp only [h1] at hm
        rcases h2 : jsIndexOfCharFrom line ':' (i + 1) with _ | j
        · simp only [h2] at hm; exact absurd hm (by simp)
        · simp only [h2] at hm
          rcases h3 : parseIntJS (strSlice line (i + 1) j) with _ | n
          · simp only [h3] at hm; exact absurd hm (by simp)
          · simp only [h3] at hm
            injection hm with hinj
            subst hinj
            exact ⟨i, j, rfl, h2, h3⟩
  · have h0 : ¬(jsTrim "file.txt:abc:content" = "") := by decide
    have h1 : jsIndexOfCharFrom "file.txt:abc:content" ':' 0 = some 8 := by decide
    have h2 : jsIndexOfCharFrom "file.txt:abc:content" ':' 9 = some 12 := by decide
    have h3 : parseIntJS (strSlice "file.txt:abc:content" 9 12) = none := by decide
    unfold parseGrepLine
    rw [if_neg h0]
    simp only [h1, h2, h3]
  · have h0 : ¬(jsTrim "file.txt:12abc:content" = "") := by decide
    have h1 : jsIndexOfCharFrom "file.txt:12abc:content" ':' 0 = some 8 := by decide
    have h2 : jsIndexOfCharFrom "file.txt:12abc:content" ':' 9 = some 14 := by decide
    have h3 : parseIntJS (strSlice "file.txt:12abc:content" 9 14) = some 12 := by decide
    have h4 : strTake "file.txt:12abc:content" 8 = "file.txt" := by decide
    have h5 : strDrop "file.txt:12abc:content" 15 = "content" := by decide
    unfold parseGrepLine
    rw [if_neg h0]
    simp only [h1, h2, h3, h4, h5]

/-- C10 (witness): the parseInt gate instantiated at a concrete well-formed
line, obtained from the theorem. -/
theorem parse_grep_line_number_gate_witness :
    ∃ i j, jsIndexOfCharFrom "a.txt:7:x" ':' 0 = some i
      ∧ jsIndexOfCharFrom "a.txt:7:x" ':' (i + 1) = some j
      ∧ parseIntJS (strSlice "a.txt:7:x" (i + 1) j)
          = some (GrepMatch.mk "a.txt" 7 "x").lineNumber := by
  exact (parse_grep_line_number_gate "/repo" "a.txt:7:x"
    (GrepMatch.mk "a.txt" 7 "x")).1 (by decide)

/-! ### Claim C2: subprocess exit-code semantics and fall-through -/

/-- C2: for both subprocess strategies, exit code 0 parses stdout, exit code
1 yields the empty match list, and any other exit code (for system grep only
when non-suppressed diagnostic output remains; with none it also yields the
empty list) is failure of that strategy; a failed git-grep attempt makes the
search continue with the system phase and a failed system-grep attempt makes
it continue with the in-process fallback, rather than propagating an error. -/
theorem subprocess_exit_code_semantics :
    (∀ stdout stderr base, gitGrepAttempt (ProcOutcome.exited 0 stdout stderr) base
      = StrategyResult.ok (parseGrepOutput stdout base))
    ∧ (∀ stdout stderr base, gitGrepAttempt (ProcOutcome.exited 1 stdout stderr) base
      = StrategyResult.ok [])
    ∧ (∀ code stdout stderr base, code ≠ 0 → code ≠ 1 →
        gitGrepAttempt (ProcOutcome.exited code stdout stderr) base = StrategyResult.failed)
    ∧ (∀ stdout chunks base, systemGrepAttempt (SysProcOutcome.exited 0 stdout chunks) base
      = StrategyResult.ok (parseGrepOutput stdout base))
    ∧ (∀ stdout chunks base, systemGrepAttempt (SysProcOutcome.exited 1 stdout chunks) base
      = StrategyResult.ok [])
    ∧ (∀ code stdout chunks base, code ≠ 0 → code ≠ 1 → nonSuppressedStderr chunks ≠ "" →
        systemGrepAttempt (SysProcOutcome.exited code stdout chunks) base
          = StrategyResult.failed)
    ∧ (∀ code stdout chunks base, code ≠ 0 → code ≠ 1 → nonSuppressedStderr chunks = "" →
        systemGrepAttempt (SysProcOutcome.exited code stdout chunks) base
          = StrategyResult.ok [])
    ∧ (∀ (env : GrepEnv) pattern absolutePath includeRaw,
        env.isGitRepository absolutePath = true → env.gitAvailable = true →
        gitGrepAttempt (env.runGitGrep absolutePath pattern (truthyOpt includeRaw))
            absolutePath = StrategyResult.failed →
        (performGrepSearch env pattern absolutePath includeRaw).1
          = (systemPhase env pattern absolutePath (truthyOpt includeRaw)).1)
    ∧ (∀ (env : GrepEnv) pattern absolutePath includeGlob,
        env.grepAvailable = true →
        systemGrepAttempt (env.runSystemGrep absolutePath pattern includeGlob)
            absolutePath = StrategyResult.failed →
        (systemPhase env pattern absolutePath includeGlob).1
          = (jsFallbackSearch env pattern absolutePath includeGlob).1) := by
  refine ⟨?_, ?_, ?_, ?_, ?_, ?_, ?_, ?_, ?_⟩
  · intro stdout stderr base; rfl
  · intro stdout stderr base
    simp [gitGrepAttempt, parseGrepOutput]
  · intro code stdout stderr base hc0 hc1
    simp only [gitGrepAttempt]
    rw [if_neg hc0, if_neg hc1]
  · intro stdout chunks base; rfl
  · intro stdout chunks base
    simp [systemGrepAttempt, parseGrepOutput]
  · intro code stdout chunks base hc0 hc1 hd
    simp only [systemGrepAttempt]
    rw [if_neg hc0, if_neg hc1, if_pos hd]
  · intro code stdout chunks base hc0 hc1 hd
    simp only [systemGrepAttempt]
    rw [if_neg hc0, if_neg hc1, if_neg (by simp [hd]), show parseGrepOutput "" base = [] from rfl]
  · intro env pattern absolutePath includeRaw hGit hAvail hFail
    unfold performGrepSearch
    rw [if_pos ⟨hGit, hAvail⟩]
    simp only [hFail]
  · intro env pattern absolutePath includeGlob hAvail hFail
    unfold systemPhase
    rw [if_pos hAvail]
    simp only [hFail]

/-- C2 (witness): the semantics instantiated at concrete exits: code 2 with
diagnostics fails for both strategies, code 2 with only suppressed
diagnostics yields the empty list for system grep, and a failing git grep
falls through to the system phase in a concrete environment. -/
theorem subprocess_exit_code_semantics_witness :
    gitGrepAttempt (ProcOutcome.exited 2 "" "fatal: bad pattern") "/r" = StrategyResult.failed
    ∧ systemGrepAttempt (SysProcOutcome.exited 2 "" ["grep: boom"]) "/r" = StrategyResult.failed
    ∧ systemGrepAttempt (SysProcOutcome.exited 2 "" ["xyz: Permission denied"]) "/r"
        = StrategyResult.ok [] := by
  refine ⟨?_, ?_, ?_⟩
  · exact (subprocess_exit_code_semantics.2.2.1) 2 "" "fatal: bad pattern" "/r"
      (by decide) (by decide)
  · exact (subprocess_exit_code_semantics.2.2.2.2.2.1) 2 "" ["grep: boom"] "/r"
      (by decide) (by decide) (by decide)
  · exact (subprocess_exit_code_semantics.2.2.2.2.2.2.1) 2 "" ["xyz: Permission denied"] "/r"
      (by decide) (by decide) (by decide)

/-! ### Claim C5: session finalization -/

/-- A concrete analytics record used to exercise the session state machine. -/
def sampleAnalytics : SearchAnalytics :=
  { timestamp := 0
    query := "q"
    searchType := SearchType.grep
    targetPath := "."
    pattern := none
    executionTimeMs := 0
    resultsFound := 0
    filesScanned := 0
    matchDetails := []
    searchStrategy := "tool-grep"
    rankingFactors := none
    toolDecisionReason := none
    searchParameters := none }

/-- Completing an active session appends the completed record. -/
theorem sessionComplete_active (st : TestBenchState) (s : SearchSession)
    (a : SearchAnalytics) (t : ℚ) (hs : s.analytics = some a) :
    sessionComplete st s t
      = ({ s with analytics := some { a with executionTimeMs := t - s.startTime } },
         { st with searchHistory :=
             st.searchHistory ++ [{ a with executionTimeMs := t - s.startTime }] }) := by
  simp [sessionComplete, SearchSession.complete, hs]

/-- Completing an inactive session does nothing. -/
theorem sessionComplete_inactive (st : TestBenchState) (s : SearchSession) (t : ℚ)
    (hs : s.analytics = none) : sessionComplete st s t = (s, st) := by
  simp [sessionComplete, SearchSession.complete, hs]

/-- C5 (counterexample): `complete` is not idempotent. Completing a concrete
active session at time 5 appends one record; completing the returned session
again at time 9 appends a second record and recomputes `executionTimeMs` to
9, so the second call is not a no-op as the claim states. -/
theorem session_complete_not_idempotent :
    (sessionComplete ⟨[], true⟩ ⟨some sampleAnalytics, 0⟩ 5).2.searchHistory.length = 1
    ∧ (sessionComplete (sessionComplete ⟨[], true⟩ ⟨some sampleAnalytics, 0⟩ 5).2
         (sessionComplete ⟨[], true⟩ ⟨some sampleAnalytics, 0⟩ 5).1 9).2.searchHistory.length = 2
    ∧ ((sessionComplete (sessionComplete ⟨[], true⟩ ⟨some sampleAnalytics, 0⟩ 5).2
         (sessionComplete ⟨[], true⟩ ⟨some sampleAnalytics, 0⟩ 5).1 9).1.analytics.map
           (fun a => a.executionTimeMs)) = some 9 := by
  refine ⟨?_, ?_, ?_⟩ <;>
    norm_num [sessionComplete, SearchSession.complete, sampleAnalytics]

/-- C5 (amended): every call to `complete` on an active session computes the
elapsed time from the captured start instant and appends the completed record
to the process-wide history via the completion callback, and `complete` on an
inactive session has no effect; the method itself is not idempotent — callers
obtain exactly-once finalization by invoking it once, as `execute` does. -/
theorem session_complete_appends_each_call (st : TestBenchState) (s : SearchSession)
    (a : SearchAnalytics) (now : ℚ) (hs : s.analytics = some a) :
    (sessionComplete st s now).2.searchHistory
      = st.searchHistory ++ [{ a with executionTimeMs := now - s.startTime }]
    ∧ (sessionComplete st s now).1.analytics
      = some { a with executionTimeMs := now - s.startTime }
    ∧ (∀ s2 : SearchSession, s2.analytics = none → sessionComplete st s2 now = (s2, st)) := by
  refine ⟨?_, ?_, ?_⟩
  · rw [sessionComplete_active st s a now hs]
  · rw [sessionComplete_active st s a now hs]
  · intro s2 hs2
    exact sessionComplete_inactive st s2 now hs2

/-- C5 (witness): the amended statement instantiated at a concrete active
session and a concrete inactive session. -/
theorem session_complete_appends_each_call_witness :
    (sessionComplete ⟨[], true⟩ ⟨some sampleAnalytics, 2⟩ 7).2.searchHistory
      = [] ++ [{ sampleAnalytics with executionTimeMs := (7 : ℚ) - 2 }]
    ∧ sessionComplete ⟨[], true⟩ ⟨none, 2⟩ 7 = (⟨none, 2⟩, ⟨[], true⟩) := by
  constructor
  · exact (session_complete_appends_each_call ⟨[], true⟩ ⟨some sampleAnalytics, 2⟩
      sampleAnalytics 7 rfl).1
  · exact (session_complete_appends_each_call ⟨[], true⟩ ⟨some sampleAnalytics, 2⟩
      sampleAnalytics 7 rfl).2.2 ⟨none, 2⟩ rfl

/-! ### Claim C7: per-file line ordering -/

/-- The grouping sort produces line-sorted lists. -/
theorem sorted_sortByLineNumber (l : List GrepMatch) :
    (sortByLineNumber l).Sorted lineLe :=
  List.sorted_insertionSort lineLe l

/-- Every group in the accumulator of the grouping fold is sorted. -/
theorem groupByFile_aux_sorted :
    ∀ (ms : List GrepMatch) (acc : List (String × List GrepMatch)),
      (∀ kv ∈ acc, kv.2.Sorted lineLe) →
      ∀ kv ∈ ms.foldl insertGrouped acc, kv.2.Sorted lineLe := by
  intro ms
  induction ms with
  | nil => intro acc hacc; exact hacc
  | cons m rest ih =>
    intro acc hacc
    rw [List.foldl_cons]
    apply ih
    intro kv hkv
    unfold insertGrouped at hkv
    split at hkv
    · rcases List.mem_map.mp hkv with ⟨kv0, hkv0, hmap⟩
      by_cases hfp : kv0.1 = m.filePath
      · rw [if_pos hfp] at hmap
        rw [← hmap]
        exact sorted_sortByLineNumber _
      · rw [if_neg hfp] at hmap
        rw [← hmap]
        exact hacc kv0 hkv0
    · rcases List.mem_append.mp hkv with h | h
      · exact hacc kv h
      · rw [show kv = (m.filePath, sortByLineNumber [m]) from by simpa using h]
        exact sorted_sortByLineNumber _

/-- A lookup hit is a member of the association list. -/
theorem lookup_mem_assoc :
    ∀ (l : List (String × List GrepMatch)) (fp : String) (g : List GrepMatch),
      l.lookup fp = some g → (fp, g) ∈ l := by
  intro l
  induction l with
  | nil => intro fp g h; exact absurd h (by simp [List.lookup])
  | cons kv rest ih =>
    intro fp g h
    rw [List.lookup] at h
    by_cases he : (fp == kv.1) = true
    · simp only [he] at h
      have hfp : fp = kv.1 := by simpa using he
      rw [List.mem_cons]
      left
      rw [hfp, ← show kv.2 = g from by simpa using h]
    · rw [Bool.not_eq_true] at he
      simp only [he] at h
      exact List.mem_cons_of_mem kv (ih fp g h)

/-- C7: in the grouped output that `execute` renders, the line numbers of
the group of each file are non-decreasing. -/
theorem grouped_line_numbers_sorted (matchList : List GrepMatch) (fp : String)
    (g : List GrepMatch) (h : (groupByFile matchList).lookup fp = some g) :
    (g.map GrepMatch.lineNumber).Sorted (· ≤ ·) := by
  have hg : g.Sorted lineLe :=
    groupByFile_aux_sorted matchList [] (by simp) (fp, g)
      (lookup_mem_assoc (groupByFile matchList) fp g h)
  rw [List.Sorted, List.pairwise_map]
  exact hg.imp (fun hab => hab)

/-- C7 (witness): the ordering theorem applied to a concrete out-of-order
match list. -/
theorem grouped_line_numbers_sorted_witness :
    ((([⟨"a.txt", 1, "y"⟩, ⟨"a.txt", 3, "x"⟩] : List GrepMatch)).map
      GrepMatch.lineNumber).Sorted (· ≤ ·) :=
  grouped_line_numbers_sorted
    [⟨"a.txt", 3, "x"⟩, ⟨"b.txt", 2, "z"⟩, ⟨"a.txt", 1, "y"⟩] "a.txt"
    [⟨"a.txt", 1, "y"⟩, ⟨"a.txt", 3, "x"⟩] (by decide)

/-! ### Claim C8: validation precedes every strategy and every access -/

/-- C8: an invalid regex pattern makes `execute` return the caller-facing
validation error with an empty effect trace — no directory stat, no
availability check, no spawned process, no glob traversal, no file read —
and validation also rejects a supplied path that is outside the workspace,
missing, or not a directory. -/
theorem invalid_input_rejected_before_io :
    (∀ (env : GrepEnv) (st : TestBenchState) (params : GrepToolParams)
        (ts : Int) (t0 t1 : ℚ),
      env.regexValid params.pattern = false →
      ∃ e, validateToolParams env params = (some e, [])
        ∧ (executeModel env st params ts t0 t1).1
            = { llmContent := "Error: Invalid parameters provided. Reason: " ++ e
                returnDisplay := "Model provided invalid parameters. Error: " ++ e }
        ∧ (executeModel env st params ts t0 t1).2.2 = [])
    ∧ (∀ (env : GrepEnv) (params : GrepToolParams) (p : String),
        params.path = some p → p ≠ "" →
        (env.isPathWithinWorkspace (pathResolve env.targetDir p) = false
          ∨ env.dirStat (pathResolve env.targetDir p) ≠ DirStat.dir) →
        ((validateToolParams env params).1).isSome = true) := by
  constructor
  · intro env st params ts t0 t1 hrv
    have hval : ∃ e, validateToolParams env params = (some e, []) := by
      unfold validateToolParams
      cases hs : env.schemaErrors params with
      | some e => exact ⟨e, rfl⟩
      | none => exact ⟨_, by rw [if_pos (by simp [hrv])]⟩
    rcases hval with ⟨e, he⟩
    exact ⟨e, he, by simp only [executeModel, he], by simp only [executeModel, he]⟩
  · intro env params p hp hpne hbad
    have hopt : optTruthy params.path = true := by
      rw [hp]; simpa [optTruthy] using hpne
    unfold validateToolParams
    cases hs : env.schemaErrors params with
    | some e => simp
    | none =>
      cases hr : env.regexValid params.pattern with
      | false => simp
      | true =>
        rw [if_neg (by simp), if_pos (by simp [hopt])]
        unfold resolveAndValidatePath
        rw [if_neg (by simp [hopt]), hp]
        simp only [Option.getD_some]
        by_cases hw : env.isPathWithinWorkspace (pathResolve env.targetDir p) = true
        · rw [if_neg (by simp [hw])]
          rcases hbad with hout | hstat
          · rw [hout] at hw; exact absurd hw (by simp)
          · cases hd : env.dirStat (pathResolve env.targetDir p) with
            | dir => exact absurd hd hstat
            | file => simp
            | notFound => simp
        · rw [Bool.not_eq_true] at hw
          rw [if_pos (by simp [hw])]
          simp

/-- A concrete environment for the C8 witness: one workspace root `/ws`,
no path on disk is a directory, no subprocess tooling, only the pattern
`(` is an invalid regex. -/
def env8 : GrepEnv :=
  { targetDir := "/ws"
    workspaceDirectories := ["/ws"]
    isPathWithinWorkspace := fun p => leadsWith p.data "/ws".data
    dirStat := fun _ => DirStat.notFound
    schemaErrors := fun _ => none
    regexValid := fun s => !(s == "(")
    regexErrorMessage := fun _ => "Invalid regular expression: missing )"
    regexTestI := fun _ _ => false
    isGitRepository := fun _ => false
    gitAvailable := false
    grepAvailable := false
    runGitGrep := fun _ _ _ => ProcOutcome.spawnFailed
    runSystemGrep := fun _ _ _ => SysProcOutcome.spawnFailed
    globFiles := fun _ _ => []
    countGlobFiles := fun _ _ => 0
    readFile := fun _ => none
    statFile := fun _ => none }

/-- C8 (witness): the theorem applied to the invalid pattern `(` (validation
error, empty trace) and to a supplied path that does not exist. -/
theorem invalid_input_rejected_before_io_witness :
    (∃ e, validateToolParams env8 ⟨"(", none, none⟩ = (some e, [])
      ∧ (executeModel env8 ⟨[], true⟩ ⟨"(", none, none⟩ 0 0 1).1
          = { llmContent := "Error: Invalid parameters provided. Reason: " ++ e
              returnDisplay := "Model provided invalid parameters. Error: " ++ e }
      ∧ (executeModel env8 ⟨[], true⟩ ⟨"(", none, none⟩ 0 0 1).2.2 = [])
    ∧ ((validateToolParams env8 ⟨"x", some "missing", none⟩).1).isSome = true := by
  constructor
  · exact invalid_input_rejected_before_io.1 env8 ⟨[], true⟩ ⟨"(", none, none⟩ 0 0 1
      (by decide)
  · exact invalid_input_rejected_before_io.2 env8 ⟨"x", some "missing", none⟩ "missing"
      rfl (by decide) (Or.inr (by decide))

/-! ### Claim C1: telemetry noninterference -/

/-- Setting the pattern does not change whether a session is active. -/
theorem isActive_setPattern (s : SearchSession) (p : String) :
    (s.setPattern p).isActive = s.isActive := by
  cases h : s.analytics <;> simp [SearchSession.setPattern, SearchSession.isActive, h]

/-- Setting the files-scanned count does not change whether a session is active. -/
theorem isActive_setFilesScanned (s : SearchSession) (n : Int) :
    (s.setFilesScanned n).isActive = s.isActive := by
  cases h : s.analytics <;> simp [SearchSession.setFilesScanned, SearchSession.isActive, h]

/-- Recording a match does not change whether a session is active. -/
theorem isActive_addMatch (s : SearchSession) (m : MatchAnalytics) :
    (s.addMatch m).isActive = s.isActive := by
  cases h : s.analytics <;> simp [SearchSession.addMatch, SearchSession.isActive, h]

/-- Recording a ranking factor does not change whether a session is active. -/
theorem isActive_addRankingFactor (s : SearchSession) (f : RankingFactor) :
    (s.addRankingFactor f).isActive = s.isActive := by
  cases h : s.analytics <;> simp [SearchSession.addRankingFactor, SearchSession.isActive, h]

/-- The per-match analytics fold does not change whether a session is active. -/
theorem isActive_matchFold (env : GrepEnv) (pat d : String) :
    ∀ (ml : List GrepMatch) (s : SearchSession) (e : List Effect),
    ((ml.foldl (fun acc m =>
        (SearchSession.addMatch acc.1 (createMatchAnalytics env m pat d).1,
         acc.2 ++ (createMatchAnalytics env m pat d).2)) (s, e)).1).isActive
      = s.isActive := by
  intro ml
  induction ml with
  | nil => intro s e; rfl
  | cons m rest ih =>
    intro s e
    rw [List.foldl_cons]
    exact (ih _ _).trans (isActive_addMatch _ _)

/-- Adding the ranking factors does not change whether a session is active. -/
theorem isActive_addSearchRankingFactors (s : SearchSession) (pat : String)
    (inc : Option String) (ml : List GrepMatch) (n : Nat) :
    (addSearchRankingFactors s pat inc ml n).isActive = s.isActive := by
  unfold addSearchRankingFactors
  by_cases h : s.isActive
  · rw [if_neg (by simp [h])]
    split_ifs <;> simp [isActive_addRankingFactor]
  · rw [if_pos (by simp [Bool.not_eq_true] at h ⊢; exact h)]

/-- The analytics wrapper returns exactly the matches of the strategy chain:
the session only observes. -/
theorem wrapper_fst (env : GrepEnv) (pat d : String) (inc : Option String)
    (s : SearchSession) :
    (performGrepSearchWithAnalytics env pat d inc s).1
      = (performGrepSearch env pat d inc).1 := by
  by_cases h : s.isActive
  · simp only [performGrepSearchWithAnalytics, h, if_true]
  · simp only [performGrepSearchWithAnalytics, h, Bool.false_eq_true, if_false]

/-- The analytics wrapper does not change whether a session is active. -/
theorem wrapper_active (env : GrepEnv) (pat d : String) (inc : Option String)
    (s : SearchSession) :
    ((performGrepSearchWithAnalytics env pat d inc s).2.1).isActive = s.isActive := by
  by_cases h : s.isActive
  · simp only [performGrepSearchWithAnalytics, h, if_true]
    rw [isActive_addSearchRankingFactors, isActive_matchFold, isActive_setFilesScanned]
    exact h
  · simp only [performGrepSearchWithAnalytics, h, Bool.false_eq_true, if_false]

/-- The matches one root contributes in the orchestrator loop, as a function
of the environment only (obtained from `execStep` by `wrapper_fst`). -/
def stepMatches (env : GrepEnv) (params : GrepToolParams) (multi : Bool)
    (searchDir : String) : List GrepMatch :=
  let ms := (performGrepSearch env params.pattern searchDir params.includeGlob).1
  if multi then
    ms.map (fun m => { m with filePath := pathJoin (pathBasename searchDir) m.filePath })
  else ms

/-- The match component of one orchestrator step appends `stepMatches`. -/
theorem execStep_fst (env : GrepEnv) (params : GrepToolParams) (multi : Bool)
    (acc : List GrepMatch × SearchSession × List Effect) (d : String) :
    (execStep env params multi acc d).1 = acc.1 ++ stepMatches env params multi d := by
  simp only [execStep, stepMatches, wrapper_fst]

/-- The aggregated match list of the orchestrator loop does not depend on the
session (or effect) component of the accumulator. -/
theorem foldl_execStep_fst (env : GrepEnv) (params : GrepToolParams) (multi : Bool) :
    ∀ (dirs : List String) (accM : List GrepMatch) (x y : SearchSession × List Effect),
    (dirs.foldl (execStep env params multi) (accM, x)).1
      = (dirs.foldl (execStep env params multi) (accM, y)).1 := by
  intro dirs
  induction dirs with
  | nil => intro accM x y; rfl
  | cons d ds ih =>
    intro accM x y
    rw [List.foldl_cons, List.foldl_cons]
    rw [show execStep env params multi (accM, x) d
        = (accM ++ stepMatches env params multi d, (execStep env params multi (accM, x) d).2)
      from Prod.ext (execStep_fst env params multi (accM, x) d) rfl]
    rw [show execStep env params multi (accM, y) d
        = (accM ++ stepMatches env params multi d, (execStep env params multi (accM, y) d).2)
      from Prod.ext (execStep_fst env params multi (accM, y) d) rfl]
    exact ih _ _ _

/-- The orchestrator loop does not change whether the session is active. -/
theorem foldl_execStep_active (env : GrepEnv) (params : GrepToolParams) (multi : Bool) :
    ∀ (dirs : List String) (acc : List GrepMatch × SearchSession × List Effect),
    ((dirs.foldl (execStep env params multi) acc).2.1).isActive = acc.2.1.isActive := by
  intro dirs
  induction dirs with
  | nil => intro acc; rfl
  | cons d ds ih =>
    intro acc
    rw [List.foldl_cons, ih]
    exact wrapper_active env params.pattern d params.includeGlob acc.2.1

/-- An inactive session has no analytics record. -/
theorem analytics_none_of_not_active (s : SearchSession) (h : s.isActive = false) :
    s.analytics = none := by
  unfold SearchSession.isActive at h
  exact Option.not_isSome_iff_eq_none.mp (by simp [h])

/-- C1: telemetry noninterference. For every environment, parameter set and
prior history, running `execute` with telemetry enabled and disabled returns
the identical tool result (same rendered summary and display, hence the same
match list and ordering); the disabled run leaves the history unchanged and
the enabled run appends exactly one `SearchAnalytics` record. -/
theorem telemetry_noninterference (env : GrepEnv) (params : GrepToolParams)
    (h : List SearchAnalytics) (ts : Int) (t0 t1 : ℚ) :
    (executeModel env ⟨h, true⟩ params ts t0 t1).1
      = (executeModel env ⟨h, false⟩ params ts t0 t1).1
    ∧ (∀ (pat d : String) (inc : Option String) (s : SearchSession),
        (performGrepSearchWithAnalytics env pat d inc s).1 = (performGrepSearch env pat d inc).1)
    ∧ (∀ (multi : Bool) (dirs : List String) (sA sB : SearchSession) (e : List Effect),
        (dirs.foldl (execStep env params multi) ([], sA, e)).1
          = (dirs.foldl (execStep env params multi) ([], sB, e)).1)
    ∧ (executeModel env ⟨h, false⟩ params ts t0 t1).2.1.searchHistory = h
    ∧ ∃ rec, (executeModel env ⟨h, true⟩ params ts t0 t1).2.1.searchHistory = h ++ [rec] := by
  refine ?_
  have hMain :
    (executeModel env ⟨h, true⟩ params ts t0 t1).1
      = (executeModel env ⟨h, false⟩ params ts t0 t1).1
    ∧ (executeModel env ⟨h, false⟩ params ts t0 t1).2.1.searchHistory = h
    ∧ ∃ rec, (executeModel env ⟨h, true⟩ params ts t0 t1).2.1.searchHistory = h ++ [rec] := by
    have hOffNone : ∀ (q tp : String),
        ((startSearch ⟨h, false⟩ q SearchType.grep tp ts t0).setPattern q).analytics = none := by
      intro q tp; rfl
    have hOnActive : ∀ (q tp : String),
        ((startSearch ⟨h, true⟩ q SearchType.grep tp ts t0).setPattern q).isActive = true := by
      intro q tp; rfl
    rcases hval : validateToolParams env params with ⟨vo, vE⟩
    cases vo with
    | some e =>
      refine ⟨by simp only [executeModel, hval], ?_, ?_⟩
      · simp only [executeModel, hval]
        rw [sessionComplete_inactive _ _ _ (hOffNone _ _)]
      · simp only [executeModel, hval]
        rcases Option.isSome_iff_exists.mp (hOnActive params.pattern _) with ⟨a, ha⟩
        exact ⟨_, by rw [sessionComplete_active _ _ _ _ ha]⟩
    | none =>
      rcases hres : resolveAndValidatePath env params.path with ⟨ro, rE⟩
      cases ro with
      | error e =>
        refine ⟨by simp only [executeModel, hval, hres], ?_, ?_⟩
        · simp only [executeModel, hval, hres]
          rw [sessionComplete_inactive _ _ _ (hOffNone _ _)]
        · simp only [executeModel, hval, hres]
          rcases Option.isSome_iff_exists.mp (hOnActive params.pattern _) with ⟨a, ha⟩
          exact ⟨_, by rw [sessionComplete_active _ _ _ _ ha]⟩
      | ok searchDirAbs =>
        simp only [executeModel, hval, hres]
        clear hres hval
        set dirs : List String :=
          (match searchDirAbs with
           | none => env.workspaceDirectories
           | some d => [d]) with hdirs
        set multi := decide (dirs.length > 1) with hmulti
        set sOn := ((startSearch ⟨h, true⟩ params.pattern SearchType.grep
          (if optTruthy params.path then params.path.getD "" else ".") ts t0).setPattern
            params.pattern) with hsOn
        set sOff := ((startSearch ⟨h, false⟩ params.pattern SearchType.grep
          (if optTruthy params.path then params.path.getD "" else ".") ts t0).setPattern
            params.pattern) with hsOff
        have hfold : (dirs.foldl (execStep env params multi) ([], sOn, vE ++ rE)).1
            = (dirs.foldl (execStep env params multi) ([], sOff, vE ++ rE)).1 :=
          foldl_execStep_fst env params multi dirs [] (sOn, vE ++ rE) (sOff, vE ++ rE)
        have hOnA : ((dirs.foldl (execStep env params multi) ([], sOn, vE ++ rE)).2.1).isActive
            = true := by
          rw [foldl_execStep_active]
          exact hOnActive params.pattern _
        have hOffA : ((dirs.foldl (execStep env params multi) ([], sOff, vE ++ rE)).2.1).analytics
            = none := by
          apply analytics_none_of_not_active
          rw [foldl_execStep_active]
          simp only [hsOff]
          rfl
        rcases Option.isSome_iff_exists.mp hOnA with ⟨a, ha⟩
        by_cases hz : (dirs.foldl (execStep env params multi) ([], sOn, vE ++ rE)).1.length = 0
        · have hzOff : (dirs.foldl (execStep env params multi) ([], sOff, vE ++ rE)).1.length = 0 := by
            rw [← hfold]; exact hz
          rw [if_pos hz, if_pos hzOff]
          refine ⟨rfl, ?_, ?_⟩
          · rw [sessionComplete_inactive _ _ _ hOffA]
          · exact ⟨_, by rw [sessionComplete_active _ _ _ _ ha]⟩
        · have hzOff : ¬(dirs.foldl (execStep env params multi) ([], sOff, vE ++ rE)).1.length = 0 := by
            rw [← hfold]; exact hz
          rw [if_neg hz, if_neg hzOff]
          refine ⟨?_, ?_, ?_⟩
          · rw [← hfold]
          · rw [sessionComplete_inactive _ _ _ hOffA]
          · exact ⟨_, by rw [sessionComplete_active _ _ _ _ ha]⟩
  exact ⟨hMain.1,
    fun pat d inc s => wrapper_fst env pat d inc s,
    fun multi dirs sA sB e => foldl_execStep_fst env params multi dirs [] (sA, e) (sB, e),
    hMain.2.1, hMain.2.2⟩

end GrepCore